import Mathlib

/-!
Shallow embedding of the consolidation-and-freshness core of the RoboCOIN
dataset visualizer asset-preparation scripts.

Embedded components:
* `scripts/consolidate_metadata.py` — the Aggregator (`consolidate_metadata`,
  `load_yaml_file`): merges per-dataset YAML metadata records into one JSON
  document, with an optional gzip sibling.
* `scripts/opti_init.py` — the Freshness Checker (`check_consolidated_json`,
  `check_thumbnails`): classifies previously produced artifacts as missing,
  empty, ok, stale or incomplete relative to their current sources.

The filesystem is modelled explicitly: a source directory is a list of files
in enumeration order, each carrying its stem, extension and parse outcome;
modification times are naturals; the output side records which artifacts a
run wrote.  Python values returned by yaml.safe_load are modelled by `PyVal`
(Python None is `PyVal.none`, the value yaml produces both for a null
document and which `load_yaml_file` returns on a parse exception).
-/

namespace Robocoin

/-- Python values as returned by yaml.safe_load / handled by json.dump:
None, booleans, integers, strings, lists and string-keyed dicts. -/
inductive PyVal where
  | none : PyVal
  | bool (b : Bool) : PyVal
  | int (n : Int) : PyVal
  | str (s : String) : PyVal
  | list (xs : List PyVal) : PyVal
  | dict (xs : List (String × PyVal)) : PyVal

/-- Python `is None` test on a value. -/
def isNone : PyVal → Bool
  | PyVal.none => true
  | _ => false

/-- One source metadata file as enumerated by `input_path.glob`: its filename
stem (`file_path.stem`), its extension, and the outcome of opening and
parsing it (`Except.error` models an exception raised inside
`load_yaml_file`, `Except.ok` the parsed document, which may be the YAML
null document `PyVal.none`). -/
structure SrcFile where
  stem : String
  ext : String
  parsed : Except String PyVal

/-- Embeds `load_yaml_file`: returns the parsed document, or Python None when
opening/parsing raised (the except-branch prints a warning and returns None). -/
def load_yaml_file (f : SrcFile) : PyVal :=
  match f.parsed with
  | Except.ok v => v
  | Except.error _ => PyVal.none

/-- True when `load_yaml_file` would take its except-branch and print the
"Failed to parse" warning for this file. -/
def isParseError (f : SrcFile) : Bool :=
  match f.parsed with
  | Except.ok _ => false
  | Except.error _ => true

/-- Python dict assignment `d[k] = v` on a duplicate-free association list:
replace the value at an existing key in place, otherwise append. -/
def dictInsert : List (String × PyVal) → String → PyVal → List (String × PyVal)
  | [], k, v => [(k, v)]
  | p :: d, k, v => if p.1 = k then (k, v) :: d else p :: dictInsert d k v

/-- Python dict lookup `d.get(k)` on an association list. -/
def lookupDict : List (String × PyVal) → String → Option PyVal
  | [], _ => Option.none
  | p :: d, k => if p.1 = k then some p.2 else lookupDict d k

/-- State of the consolidation loop: the accumulating `consolidated` dict and
the `failed_count` counter. -/
structure LoopState where
  consolidated : List (String × PyVal)
  failed_count : Nat

/-- Embeds one iteration of the loop in `consolidate_metadata`: key is the
filename stem; a file whose `load_yaml_file` result is not None is merged
into the dict, otherwise `failed_count` is incremented. -/
def consolidateStep (st : LoopState) (f : SrcFile) : LoopState :=
  let data := load_yaml_file f
  if isNone data then
    { st with failed_count := st.failed_count + 1 }
  else
    { st with consolidated := dictInsert st.consolidated f.stem data }

/-- Embeds the whole loop over `all_files` in enumeration order. -/
def consolidateFold (files : List SrcFile) : LoopState :=
  files.foldl consolidateStep { consolidated := [], failed_count := 0 }

/-- Number of files the run counts as failures: those whose
`load_yaml_file` result is Python None (parse exceptions and null documents). -/
def countFailed (files : List SrcFile) : Nat :=
  (files.filter (fun f => isNone (load_yaml_file f))).length

/-- Number of files contributing a payload: those whose `load_yaml_file`
result is not None. -/
def countValid (files : List SrcFile) : Nat :=
  (files.filter (fun f => !(isNone (load_yaml_file f)))).length

/-- Hex digit used by the JSON string escaper. -/
def hexDigit (n : Nat) : Char :=
  if n < 10 then Char.ofNat (48 + n) else Char.ofNat (87 + n)

/-- Escape one character the way json.dump (ensure_ascii=False) does:
quote, backslash and control characters are escaped, everything else is
emitted verbatim. -/
def escapeJsonChar (c : Char) : String :=
  if c = '"' then "\\\""
  else if c = '\\' then "\\\\"
  else if c = '\n' then "\\n"
  else if c = '\t' then "\\t"
  else if c = '\r' then "\\r"
  else if c.toNat < 32 then
    "\\u00" ++ String.singleton (hexDigit (c.toNat / 16))
      ++ String.singleton (hexDigit (c.toNat % 16))
  else String.singleton c

/-- JSON encoding of a string literal. -/
def escapeJsonString (s : String) : String :=
  "\"" ++ String.join (s.toList.map escapeJsonChar) ++ "\""

mutual
/-- Embeds `json.dump(..., ensure_ascii=False, separators=(',', ':'))`:
compact JSON encoding with no whitespace. -/
def encodeJson : PyVal → String
  | PyVal.none => "null"
  | PyVal.bool true => "true"
  | PyVal.bool false => "false"
  | PyVal.int n => toString n
  | PyVal.str s => escapeJsonString s
  | PyVal.list xs => "[" ++ encodeJsonList xs ++ "]"
  | PyVal.dict xs => "\x7b" ++ encodeJsonPairs xs ++ "\x7d"

/-- Comma-separated encoding of a JSON array body. -/
def encodeJsonList : List PyVal → String
  | [] => ""
  | [x] => encodeJson x
  | x :: y :: rest => encodeJson x ++ "," ++ encodeJsonList (y :: rest)

/-- Comma-separated encoding of a JSON object body with `:` separators. -/
def encodeJsonPairs : List (String × PyVal) → String
  | [] => ""
  | [(k, v)] => escapeJsonString k ++ ":" ++ encodeJson v
  | (k, v) :: q :: rest =>
      escapeJsonString k ++ ":" ++ encodeJson v ++ "," ++ encodeJsonPairs (q :: rest)
end

/-- How a run of the script terminated: `sys.exit code`, an uncaught
exception (the Python interpreter then exits with code 1), or a normal
return from `consolidate_metadata` (the process then exits with code 0). -/
inductive RunOutcome where
  | exited (code : Nat) : RunOutcome
  | raised : RunOutcome
  | completed : RunOutcome
deriving DecidableEq

/-- Process exit code produced by each outcome. -/
def RunOutcome.exitCode : RunOutcome → Nat
  | RunOutcome.exited c => c
  | RunOutcome.raised => 1
  | RunOutcome.completed => 0

/-- Output side of the filesystem: content of the primary JSON artifact and
of the bytes fed to the gzip sibling, when present.  The gzip transformation
itself is an external library, deterministic in its input bytes, so the
model records the input bytes handed to it. -/
structure OutFs where
  primary : Option String
  gzSource : Option String
deriving DecidableEq

/-- Observable result of one run of `consolidate_metadata`. -/
structure RunResult where
  outcome : RunOutcome
  fs : OutFs
  entries : List (String × PyVal)
  failed_count : Nat
  parse_warnings : Nat

/-- Embeds `consolidate_metadata(input_dir, output_file, compress)`.
Inputs: whether the input directory exists, the enumerated source files
(`*.yml` files first, then `*.yaml`, as the script concatenates the two
globs), the `compress` flag, whether the write of the compressed sibling
raises (it is not wrapped in any try/except in the script, so a failure
there propagates as an uncaught exception after the primary artifact has
already been written), and the prior state of the output artifacts.
Exits 1 before writing anything when the directory is missing or no YAML
files are found; otherwise runs the consolidation loop, writes the primary
JSON, then optionally the compressed sibling. -/
def consolidate_metadata (inputDirExists : Bool) (files : List SrcFile)
    (compress : Bool) (gzWriteFails : Bool) (prior : OutFs) : RunResult :=
  if ¬ inputDirExists then
    { outcome := RunOutcome.exited 1, fs := prior, entries := [],
      failed_count := 0, parse_warnings := 0 }
  else if files.isEmpty then
    { outcome := RunOutcome.exited 1, fs := prior, entries := [],
      failed_count := 0, parse_warnings := 0 }
  else
    let st := consolidateFold files
    let warns := (files.filter (fun f => isParseError f)).length
    let content := encodeJson (PyVal.dict st.consolidated)
    let fs1 : OutFs := { prior with primary := some content }
    if compress then
      if gzWriteFails then
        { outcome := RunOutcome.raised, fs := fs1, entries := st.consolidated,
          failed_count := st.failed_count, parse_warnings := warns }
      else
        { outcome := RunOutcome.completed,
          fs := { fs1 with gzSource := some content },
          entries := st.consolidated,
          failed_count := st.failed_count, parse_warnings := warns }
    else
      { outcome := RunOutcome.completed, fs := fs1, entries := st.consolidated,
        failed_count := st.failed_count, parse_warnings := warns }

/-- Freshness verdict strings used by `opti_init.py`. -/
inductive Verdict where
  | missing : Verdict
  | empty : Verdict
  | ok : Verdict
  | stale : Verdict
  | incomplete : Verdict
deriving DecidableEq

/-- Largest element of a (nonempty) list of modification times, as computed
by Python `max(...)`; 0 on the empty list, which the script never reaches. -/
def listMax : List Nat → Nat
  | [] => 0
  | m :: ms => ms.foldl max m

/-- Result of `check_consolidated_json`: the boolean first component of the
returned pair, the verdict string, and whether the "Cannot verify
freshness" warning was printed. -/
structure JsonCheck where
  found : Bool
  verdict : Verdict
  freshnessWarning : Bool
deriving DecidableEq

/-- Embeds `check_consolidated_json(docs_dir, check_freshness)`.  Inputs:
whether the consolidated JSON exists, its modification time, and the
modification times of the `*.yml`/`*.yaml` files currently in the source
directory. -/
def check_consolidated_json (jsonOnDisk : Bool) (jsonMtime : Nat)
    (yamlMtimes : List Nat) (check_freshness : Bool) : JsonCheck :=
  if ¬ jsonOnDisk then ⟨false, Verdict.missing, false⟩
  else if check_freshness then
    if yamlMtimes.isEmpty then ⟨true, Verdict.ok, true⟩
    else if jsonMtime < listMax yamlMtimes then ⟨true, Verdict.stale, false⟩
    else ⟨true, Verdict.ok, false⟩
  else ⟨true, Verdict.ok, false⟩

/-- The `issues` dict built by `check_thumbnails`: the two sets it may carry
(a key absent from the Python dict is the empty set here). -/
structure ThumbIssues where
  missing_thumbnails : Finset String
  orphaned_thumbnails : Finset String
deriving DecidableEq

/-- The empty `issues` dict. -/
def noIssues : ThumbIssues := ⟨∅, ∅⟩

/-- Result of `check_thumbnails`: the boolean first component, the verdict
string, and the issues dict. -/
structure ThumbCheck where
  found : Bool
  verdict : Verdict
  issues : ThumbIssues
deriving DecidableEq

/-- Embeds `check_thumbnails(docs_dir, check_correspondence)`.  Inputs:
whether the thumbnails directory exists, the stems of its `*.jpg` files,
whether the videos directory exists, the stems of its `*.mp4` files, and
the `check_correspondence` flag.  The correspondence comparison only runs
when the flag is set and the videos directory exists; otherwise the
function falls through to its final `return True, "ok", empty`. -/
def check_thumbnails (thumbDirExists : Bool) (thumbnail_files : List String)
    (videosDirExists : Bool) (video_files : List String)
    (check_correspondence : Bool) : ThumbCheck :=
  if ¬ thumbDirExists then ⟨false, Verdict.missing, noIssues⟩
  else if thumbnail_files.isEmpty then ⟨false, Verdict.empty, noIssues⟩
  else if check_correspondence && videosDirExists then
    let thumbnail_names := thumbnail_files.toFinset
    let video_names := video_files.toFinset
    let missing := video_names \ thumbnail_names
    let orphaned := thumbnail_names \ video_names
    if missing = ∅ ∧ orphaned = ∅ then ⟨true, Verdict.ok, noIssues⟩
    else ⟨true, Verdict.incomplete, ⟨missing, orphaned⟩⟩
  else ⟨true, Verdict.ok, noIssues⟩

/-! Helper lemmas about the dict operations and the consolidation loop. -/

theorem lookupDict_dictInsert_self (d : List (String × PyVal)) (k : String)
    (v : PyVal) : lookupDict (dictInsert d k v) k = some v := by
  induction d with
  | nil => simp [dictInsert, lookupDict]
  | cons p d ih =>
      by_cases h : p.1 = k
      · simp [dictInsert, h, lookupDict]
      · simp [dictInsert, h, lookupDict, ih]

theorem lookupDict_dictInsert_ne (d : List (String × PyVal)) (k k' : String)
    (v : PyVal) (h : k' ≠ k) :
    lookupDict (dictInsert d k v) k' = lookupDict d k' := by
  induction d with
  | nil => simp [dictInsert, lookupDict, Ne.symm h]
  | cons p d ih =>
      by_cases hp : p.1 = k
      · simp [dictInsert, hp, lookupDict, Ne.symm h]
      · by_cases hp' : p.1 = k'
        · simp [dictInsert, hp, lookupDict, hp', h]
        · simp [dictInsert, hp, lookupDict, hp', ih]

theorem mem_dictInsert (d : List (String × PyVal)) (k : String) (v : PyVal)
    (p : String × PyVal) (h : p ∈ dictInsert d k v) : p ∈ d ∨ p = (k, v) := by
  induction d with
  | nil => simp [dictInsert] at h; simp [h]
  | cons q d ih =>
      by_cases hq : q.1 = k
      · simp [dictInsert, hq] at h
        rcases h with h | h
        · right; simp [h]
        · left; simp [h]
      · simp [dictInsert, hq] at h
        rcases h with h | h
        · left; simp [h]
        · rcases ih h with h' | h'
          · left; simp [h']
          · right; exact h'

theorem dictInsert_of_fresh (d : List (String × PyVal)) (k : String)
    (v : PyVal) (h : ∀ q ∈ d, q.1 ≠ k) : dictInsert d k v = d ++ [(k, v)] := by
  induction d with
  | nil => simp [dictInsert]
  | cons q d ih =>
      have hq : q.1 ≠ k := h q (List.mem_cons_self q d)
      simp only [dictInsert, hq, if_false]
      rw [ih (fun r hr => h r (List.mem_cons_of_mem q hr))]
      simp

theorem foldl_failed_count (files : List SrcFile) : ∀ st : LoopState,
    (files.foldl consolidateStep st).failed_count
      = st.failed_count + countFailed files := by
  induction files with
  | nil => intro st; simp [countFailed]
  | cons f fs ih =>
      intro st
      by_cases h : isNone (load_yaml_file f) = true
      · simp only [List.foldl_cons, ih, consolidateStep, h, if_true,
          countFailed, List.filter_cons]
        simp [countFailed, h, Nat.add_assoc, Nat.add_comm 1]
      · simp only [List.foldl_cons, ih, consolidateStep, h, if_false,
          countFailed, List.filter_cons]
        simp [countFailed, h]

theorem foldl_entries_sound (files : List SrcFile) : ∀ (st : LoopState)
    (p : String × PyVal), p ∈ (files.foldl consolidateStep st).consolidated →
    p ∈ st.consolidated ∨
      ∃ f ∈ files, f.stem = p.1 ∧ load_yaml_file f = p.2 ∧
        isNone (load_yaml_file f) = false := by
  induction files with
  | nil => intro st p hp; left; simpa using hp
  | cons f fs ih =>
      intro st p hp
      by_cases h : isNone (load_yaml_file f) = true
      · rw [List.foldl_cons] at hp
        rcases ih _ p hp with h' | ⟨g, hg, hgs⟩
        · left
          simpa [consolidateStep, h] using h'
        · right
          exact ⟨g, List.mem_cons_of_mem f hg, hgs⟩
      · rw [List.foldl_cons] at hp
        rcases ih _ p hp with h' | ⟨g, hg, hgs⟩
        · have h'' : p ∈ dictInsert st.consolidated f.stem (load_yaml_file f) := by
            simpa [consolidateStep, h] using h'
          rcases mem_dictInsert _ _ _ _ h'' with h3 | h3
          · left; exact h3
          · right
            refine ⟨f, List.mem_cons_self f fs, ?_, ?_, ?_⟩
            · simp [h3]
            · simp [h3]
            · simpa using h
        · right
          exact ⟨g, List.mem_cons_of_mem f hg, hgs⟩

theorem foldl_length_nodup (files : List SrcFile) : ∀ st : LoopState,
    (files.map SrcFile.stem).Nodup →
    (∀ f ∈ files, ∀ q ∈ st.consolidated, q.1 ≠ f.stem) →
    ((files.foldl consolidateStep st).consolidated).length
      = st.consolidated.length + countValid files := by
  induction files with
  | nil => intro st _ _; simp [countValid]
  | cons f fs ih =>
      intro st hnd hfresh
      have hnd' : (fs.map SrcFile.stem).Nodup := (List.nodup_cons.mp hnd).2
      have hstem : f.stem ∉ fs.map SrcFile.stem := (List.nodup_cons.mp hnd).1
      by_cases h : isNone (load_yaml_file f) = true
      · rw [List.foldl_cons]
        have hstep : (consolidateStep st f).consolidated = st.consolidated := by
          simp [consolidateStep, h]
        rw [ih _ hnd' (by
          intro g hg q hq
          exact hfresh g (List.mem_cons_of_mem f hg) q (by rwa [hstep] at hq))]
        simp [hstep, countValid, List.filter_cons, h]
      · rw [List.foldl_cons]
        have hstep : (consolidateStep st f).consolidated
            = st.consolidated ++ [(f.stem, load_yaml_file f)] := by
          simp only [consolidateStep, h, if_false]
          exact dictInsert_of_fresh _ _ _
            (fun q hq => hfresh f (List.mem_cons_self f fs) q hq)
        rw [ih _ hnd' (by
          intro g hg q hq
          rw [hstep] at hq
          rcases List.mem_append.mp hq with hq' | hq'
          · exact hfresh g (List.mem_cons_of_mem f hg) q hq'
          · have hq1 : q.1 = f.stem := by
              have : q = (f.stem, load_yaml_file f) := by simpa using hq'
              simp [this]
            rw [hq1]
            intro heq
            apply hstem
            rw [heq]
            exact List.mem_map_of_mem SrcFile.stem hg)]
        rw [hstep]
        simp [countValid, List.filter_cons, h]
        omega

theorem consolidateStep_congr (st : LoopState) (f g : SrcFile)
    (hstem : f.stem = g.stem) (hload : load_yaml_file f = load_yaml_file g) :
    consolidateStep st f = consolidateStep st g := by
  simp [consolidateStep, hstem, hload]

theorem foldl_congr_middle (pre post : List SrcFile) (f g : SrcFile)
    (hstem : f.stem = g.stem) (hload : load_yaml_file f = load_yaml_file g)
    (st : LoopState) :
    (pre ++ f :: post).foldl consolidateStep st
      = (pre ++ g :: post).foldl consolidateStep st := by
  rw [List.foldl_append, List.foldl_append, List.foldl_cons, List.foldl_cons,
    consolidateStep_congr _ f g hstem hload]

theorem countFailed_append (l1 l2 : List SrcFile) :
    countFailed (l1 ++ l2) = countFailed l1 + countFailed l2 := by
  simp [countFailed, List.filter_append]

theorem foldl_lookup_last (files : List SrcFile) (k : String) : ∀ st : LoopState,
    lookupDict ((files.foldl consolidateStep st).consolidated) k =
      (match (files.filter
          (fun f => f.stem == k && !(isNone (load_yaml_file f)))).getLast? with
       | some g => some (load_yaml_file g)
       | Option.none => lookupDict st.consolidated k) := by
  induction files with
  | nil => intro st; rfl
  | cons f fs ih =>
      intro st
      by_cases hn : isNone (load_yaml_file f) = true
      · rw [List.foldl_cons, ih]
        have hstep : (consolidateStep st f).consolidated = st.consolidated := by
          simp [consolidateStep, hn]
        rw [hstep]
        simp [List.filter_cons, hn]
      · by_cases hs : f.stem = k
        · rw [List.foldl_cons, ih]
          have hstep : (consolidateStep st f).consolidated
              = dictInsert st.consolidated f.stem (load_yaml_file f) := by
            simp [consolidateStep, hn]
          rw [hstep]
          have hfil : (f :: fs).filter
              (fun f => f.stem == k && !(isNone (load_yaml_file f)))
              = f :: fs.filter
                  (fun f => f.stem == k && !(isNone (load_yaml_file f))) := by
            simp [List.filter_cons, hs, hn]
          rw [hfil]
          cases hfl : (fs.filter
              (fun f => f.stem == k && !(isNone (load_yaml_file f)))).getLast? with
          | none =>
              have hnil : fs.filter
                  (fun f => f.stem == k && !(isNone (load_yaml_file f))) = [] :=
                List.getLast?_eq_none_iff.mp hfl
              rw [hnil]
              simp [hs, lookupDict_dictInsert_self]
          | some g =>
              have hne : fs.filter
                  (fun f => f.stem == k && !(isNone (load_yaml_file f))) ≠ [] := by
                intro hc
                rw [hc] at hfl
                simp at hfl
              obtain ⟨b, l, hbl⟩ := List.exists_cons_of_ne_nil hne
              rw [hbl]
              rw [hbl] at hfl
              rw [List.getLast?_cons_cons, hfl]
        · rw [List.foldl_cons, ih]
          have hstep : (consolidateStep st f).consolidated
              = dictInsert st.consolidated f.stem (load_yaml_file f) := by
            simp [consolidateStep, hn]
          rw [hstep, lookupDict_dictInsert_ne _ _ _ _ (fun he => hs he.symm)]
          simp [List.filter_cons, hs]

/-- Normal form of a run of `consolidate_metadata` on a nonempty file list:
the consolidation loop runs, the primary JSON is written, and the outcome
depends only on the compression step. -/
theorem consolidate_metadata_run (files : List SrcFile) (c gzf : Bool)
    (prior : OutFs) (h : files.isEmpty = false) :
    consolidate_metadata true files c gzf prior =
      { outcome := if c && gzf then RunOutcome.raised else RunOutcome.completed,
        fs := { primary :=
                  some (encodeJson (PyVal.dict (consolidateFold files).consolidated)),
                gzSource :=
                  if c && !gzf then
                    some (encodeJson (PyVal.dict (consolidateFold files).consolidated))
                  else prior.gzSource },
        entries := (consolidateFold files).consolidated,
        failed_count := (consolidateFold files).failed_count,
        parse_warnings := (files.filter (fun f => isParseError f)).length } := by
  cases c <;> cases gzf <;> simp [consolidate_metadata, h]

theorem isEmpty_false_of_ne_nil {α : Type} {l : List α} (h : l ≠ []) :
    l.isEmpty = false := by
  cases l with
  | nil => exact absurd rfl h
  | cons a l => rfl

theorem run_entries (files : List SrcFile) (c gzf : Bool) (prior : OutFs)
    (h : files.isEmpty = false) :
    (consolidate_metadata true files c gzf prior).entries
      = (consolidateFold files).consolidated := by
  rw [consolidate_metadata_run files c gzf prior h]

theorem run_failed (files : List SrcFile) (c gzf : Bool) (prior : OutFs)
    (h : files.isEmpty = false) :
    (consolidate_metadata true files c gzf prior).failed_count
      = (consolidateFold files).failed_count := by
  rw [consolidate_metadata_run files c gzf prior h]

theorem run_warnings (files : List SrcFile) (c gzf : Bool) (prior : OutFs)
    (h : files.isEmpty = false) :
    (consolidate_metadata true files c gzf prior).parse_warnings
      = (files.filter (fun f => isParseError f)).length := by
  rw [consolidate_metadata_run files c gzf prior h]

theorem run_primary (files : List SrcFile) (c gzf : Bool) (prior : OutFs)
    (h : files.isEmpty = false) :
    (consolidate_metadata true files c gzf prior).fs.primary
      = some (encodeJson (PyVal.dict (consolidateFold files).consolidated)) := by
  rw [consolidate_metadata_run files c gzf prior h]

theorem run_outcome (files : List SrcFile) (c gzf : Bool) (prior : OutFs)
    (h : files.isEmpty = false) :
    (consolidate_metadata true files c gzf prior).outcome
      = (if c && gzf then RunOutcome.raised else RunOutcome.completed) := by
  rw [consolidate_metadata_run files c gzf prior h]

theorem consolidateFold_failed (files : List SrcFile) :
    (consolidateFold files).failed_count = countFailed files := by
  have h := foldl_failed_count files ⟨[], 0⟩
  simpa [consolidateFold] using h

/-! Claim theorems. -/

/-- C1: for every derived (thumbnails) directory and existing source
(videos) directory, `check_thumbnails` returns `missing` when the derived
directory does not exist, `empty` when it exists but holds zero derived
files, and otherwise reports `missingIdentifiers = sourceIdentifiers −
derivedIdentifiers` and `orphanedIdentifiers = derivedIdentifiers −
sourceIdentifiers`, with verdict `ok` iff both sets are empty and
`incomplete` otherwise. -/
theorem check_thumbnails_freshness_spec (ts vs : List String) :
    (check_thumbnails false ts true vs true).verdict = Verdict.missing ∧
    (check_thumbnails true [] true vs true).verdict = Verdict.empty ∧
    (ts ≠ [] →
      (check_thumbnails true ts true vs true).issues.missing_thumbnails
          = vs.toFinset \ ts.toFinset ∧
      (check_thumbnails true ts true vs true).issues.orphaned_thumbnails
          = ts.toFinset \ vs.toFinset ∧
      ((check_thumbnails true ts true vs true).verdict = Verdict.ok ↔
        vs.toFinset \ ts.toFinset = ∅ ∧ ts.toFinset \ vs.toFinset = ∅) ∧
      ((check_thumbnails true ts true vs true).verdict = Verdict.ok ∨
        (check_thumbnails true ts true vs true).verdict = Verdict.incomplete)) := by
  refine ⟨by simp [check_thumbnails], by simp [check_thumbnails], ?_⟩
  intro hts
  have hne : ts.isEmpty = false := isEmpty_false_of_ne_nil hts
  by_cases hok : vs.toFinset \ ts.toFinset = ∅ ∧ ts.toFinset \ vs.toFinset = ∅
  · simp [check_thumbnails, hne, hok, noIssues]
  · have hok' : ¬(vs.toFinset ⊆ ts.toFinset ∧ ts.toFinset ⊆ vs.toFinset) := by
      simpa [Finset.sdiff_eq_empty_iff_subset] using hok
    simp [check_thumbnails, hne, hok, hok']

/-- Witness for C1, at the spec's own example: sources {a,b,c} and derived
{a,b,d} yield `incomplete` with missing {c} and orphaned {d}. -/
theorem check_thumbnails_freshness_spec_witness :
    (["a", "b", "d"] : List String) ≠ [] ∧
    (check_thumbnails true ["a", "b", "d"] true ["a", "b", "c"] true).issues.missing_thumbnails
        = ({"c"} : Finset String) ∧
    (check_thumbnails true ["a", "b", "d"] true ["a", "b", "c"] true).issues.orphaned_thumbnails
        = ({"d"} : Finset String) ∧
    (check_thumbnails true ["a", "b", "d"] true ["a", "b", "c"] true).verdict
        = Verdict.incomplete := by
  have h := (check_thumbnails_freshness_spec ["a", "b", "d"] ["a", "b", "c"]).2.2
    (by decide)
  refine ⟨by decide, by rw [h.1]; decide, by rw [h.2.1]; decide, ?_⟩
  rcases h.2.2.2 with hv | hv
  · exfalso
    have hc := h.2.2.1.mp hv
    revert hc
    decide
  · exact hv

/-- C10: when the thumbnails directory exists and holds at least one
thumbnail but the videos directory does not exist, `check_thumbnails`
returns verdict `ok` with empty issue sets — the correspondence check is
silently skipped. -/
theorem check_thumbnails_skips_missing_videos_dir (ts vs : List String)
    (h : ts ≠ []) :
    check_thumbnails true ts false vs true = ⟨true, Verdict.ok, noIssues⟩ := by
  have hne : ts.isEmpty = false := isEmpty_false_of_ne_nil h
  simp [check_thumbnails, hne]

/-- Witness for C10 at a concrete input. -/
theorem check_thumbnails_skips_missing_videos_dir_witness :
    (["a", "b"] : List String) ≠ [] ∧
    check_thumbnails true ["a", "b"] false ["x"] true
      = ⟨true, Verdict.ok, noIssues⟩ :=
  ⟨by decide, check_thumbnails_skips_missing_videos_dir ["a", "b"] ["x"] (by decide)⟩

/-- C2: `check_consolidated_json` returns `missing` when the aggregate is
absent; with at least one source record it returns `stale` iff the maximum
source modification time exceeds the aggregate's and `ok` otherwise; with
zero source records it returns `ok` and prints the freshness-unverified
warning. -/
theorem check_consolidated_json_spec (jm : Nat) (yms : List Nat) :
    (check_consolidated_json false jm yms true).verdict = Verdict.missing ∧
    (yms ≠ [] →
      (((check_consolidated_json true jm yms true).verdict = Verdict.stale) ↔
        jm < listMax yms) ∧
      ((check_consolidated_json true jm yms true).verdict = Verdict.stale ∨
        (check_consolidated_json true jm yms true).verdict = Verdict.ok)) ∧
    (yms = [] →
      (check_consolidated_json true jm yms true).verdict = Verdict.ok ∧
      (check_consolidated_json true jm yms true).freshnessWarning = true) := by
  refine ⟨by simp [check_consolidated_json], ?_, ?_⟩
  · intro hy
    have hne : yms.isEmpty = false := isEmpty_false_of_ne_nil hy
    by_cases hlt : jm < listMax yms
    · simp [check_consolidated_json, hne, hlt]
    · simp [check_consolidated_json, hne, hlt]
  · intro hy
    subst hy
    simp [check_consolidated_json]

/-- Witness for C2: one source newer than the aggregate is reported stale. -/
theorem check_consolidated_json_spec_witness :
    ([3] : List Nat) ≠ [] ∧
    (((check_consolidated_json true 2 [3] true).verdict = Verdict.stale) ↔
      2 < listMax [3]) ∧
    ((check_consolidated_json true 2 [3] true).verdict = Verdict.stale ∨
      (check_consolidated_json true 2 [3] true).verdict = Verdict.ok) :=
  ⟨by decide, (check_consolidated_json_spec 2 [3]).2.1 (by decide)⟩

/-- C3 counterexample: a directory holding `a.yml` and `a.yaml`, both valid,
has M = 2 valid records and K = 0 failures, yet the Aggregate ends up with
a single entry, because both files share the stem `a`. -/
theorem consolidate_counts_counterexample :
    countValid ([⟨"a", "yml", Except.ok (PyVal.int 1)⟩,
                 ⟨"a", "yaml", Except.ok (PyVal.int 2)⟩] : List SrcFile) = 2 ∧
    countFailed ([⟨"a", "yml", Except.ok (PyVal.int 1)⟩,
                  ⟨"a", "yaml", Except.ok (PyVal.int 2)⟩] : List SrcFile) = 0 ∧
    (consolidate_metadata true
        [⟨"a", "yml", Except.ok (PyVal.int 1)⟩,
         ⟨"a", "yaml", Except.ok (PyVal.int 2)⟩] true false
        ⟨Option.none, Option.none⟩).outcome.exitCode = 0 ∧
    (consolidate_metadata true
        [⟨"a", "yml", Except.ok (PyVal.int 1)⟩,
         ⟨"a", "yaml", Except.ok (PyVal.int 2)⟩] true false
        ⟨Option.none, Option.none⟩).entries.length = 1 := by
  refine ⟨by decide, by decide, by decide, by decide⟩

/-- C3 (amended): for a source directory whose filenames have pairwise
distinct stems, holding M ≥ 1 valid records among its files, the run
produces exactly M entries, reports one failure per unparsable record, and
exits with code 0. -/
theorem consolidate_counts_distinct_stems (files : List SrcFile) (c : Bool)
    (prior : OutFs) (hnd : (files.map SrcFile.stem).Nodup)
    (hM : 1 ≤ countValid files) :
    (consolidate_metadata true files c false prior).entries.length
        = countValid files ∧
    (consolidate_metadata true files c false prior).failed_count
        = countFailed files ∧
    (consolidate_metadata true files c false prior).outcome.exitCode = 0 := by
  have hne : files.isEmpty = false := by
    cases files with
    | nil => simp [countValid] at hM
    | cons f fs => rfl
  refine ⟨?_, ?_, ?_⟩
  · rw [run_entries files c false prior hne]
    have h := foldl_length_nodup files ⟨[], 0⟩ hnd (by
      intro f hf q hq
      simp at hq)
    simpa [consolidateFold] using h
  · rw [run_failed files c false prior hne, consolidateFold_failed]
  · rw [run_outcome files c false prior hne]
    simp [RunOutcome.exitCode]

/-- Witness for the amended C3: one valid and one unparsable record with
distinct stems give one entry, one failure, exit 0. -/
theorem consolidate_counts_distinct_stems_witness :
    ((([⟨"a", "yml", Except.ok (PyVal.int 1)⟩,
        ⟨"b", "yml", Except.error "bad"⟩] : List SrcFile).map SrcFile.stem).Nodup ∧
     1 ≤ countValid ([⟨"a", "yml", Except.ok (PyVal.int 1)⟩,
                      ⟨"b", "yml", Except.error "bad"⟩] : List SrcFile)) ∧
    ((consolidate_metadata true
        [⟨"a", "yml", Except.ok (PyVal.int 1)⟩,
         ⟨"b", "yml", Except.error "bad"⟩] true false
        ⟨Option.none, Option.none⟩).entries.length
      = countValid ([⟨"a", "yml", Except.ok (PyVal.int 1)⟩,
                     ⟨"b", "yml", Except.error "bad"⟩] : List SrcFile) ∧
     (consolidate_metadata true
        [⟨"a", "yml", Except.ok (PyVal.int 1)⟩,
         ⟨"b", "yml", Except.error "bad"⟩] true false
        ⟨Option.none, Option.none⟩).failed_count
      = countFailed ([⟨"a", "yml", Except.ok (PyVal.int 1)⟩,
                      ⟨"b", "yml", Except.error "bad"⟩] : List SrcFile) ∧
     (consolidate_metadata true
        [⟨"a", "yml", Except.ok (PyVal.int 1)⟩,
         ⟨"b", "yml", Except.error "bad"⟩] true false
        ⟨Option.none, Option.none⟩).outcome.exitCode = 0) :=
  ⟨⟨by decide, by decide⟩,
    consolidate_counts_distinct_stems
      [⟨"a", "yml", Except.ok (PyVal.int 1)⟩, ⟨"b", "yml", Except.error "bad"⟩]
      true ⟨Option.none, Option.none⟩ (by decide) (by decide)⟩

/-- C4: zero source records is fatal — the run exits with code 1 before
writing anything, so the output artifacts keep their prior state. -/
theorem consolidate_empty_input_fatal (c gzf : Bool) (prior : OutFs) :
    (consolidate_metadata true [] c gzf prior).outcome = RunOutcome.exited 1 ∧
    (consolidate_metadata true [] c gzf prior).outcome.exitCode ≠ 0 ∧
    (consolidate_metadata true [] c gzf prior).fs = prior :=
  ⟨rfl, by simp [consolidate_metadata, RunOutcome.exitCode], rfl⟩

/-- C5 counterexample: with one valid record and a failing compressed-file
write, the primary artifact is written and valid, but the run does not
succeed — the exception is uncaught and the process exits nonzero. -/
theorem consolidate_gz_failure_counterexample :
    (consolidate_metadata true [⟨"a", "yml", Except.ok (PyVal.int 1)⟩] true true
        ⟨Option.none, Option.none⟩).outcome.exitCode ≠ 0 ∧
    (consolidate_metadata true [⟨"a", "yml", Except.ok (PyVal.int 1)⟩] true true
        ⟨Option.none, Option.none⟩).fs.primary
      = some (encodeJson (PyVal.dict [("a", PyVal.int 1)])) :=
  ⟨by decide, rfl⟩

/-- C5 (amended): when writing the compressed variant fails after the
primary artifact was written, the primary artifact holds the full encoded
Aggregate, but the failure is not caught: the exception propagates and the
run exits nonzero. -/
theorem consolidate_gz_failure_amended (files : List SrcFile) (prior : OutFs)
    (h : files ≠ []) :
    (consolidate_metadata true files true true prior).outcome
        = RunOutcome.raised ∧
    (consolidate_metadata true files true true prior).outcome.exitCode = 1 ∧
    (consolidate_metadata true files true true prior).fs.primary
      = some (encodeJson (PyVal.dict (consolidateFold files).consolidated)) := by
  have hne := isEmpty_false_of_ne_nil h
  refine ⟨?_, ?_, run_primary files true true prior hne⟩
  · rw [run_outcome files true true prior hne]
    rfl
  · rw [run_outcome files true true prior hne]
    rfl

/-- Witness for the amended C5 at a concrete input. -/
theorem consolidate_gz_failure_amended_witness :
    ([⟨"a", "yml", Except.ok (PyVal.int 1)⟩] : List SrcFile) ≠ [] ∧
    ((consolidate_metadata true [⟨"a", "yml", Except.ok (PyVal.int 1)⟩] true true
        ⟨Option.none, Option.none⟩).outcome = RunOutcome.raised ∧
     (consolidate_metadata true [⟨"a", "yml", Except.ok (PyVal.int 1)⟩] true true
        ⟨Option.none, Option.none⟩).outcome.exitCode = 1 ∧
     (consolidate_metadata true [⟨"a", "yml", Except.ok (PyVal.int 1)⟩] true true
        ⟨Option.none, Option.none⟩).fs.primary
       = some (encodeJson (PyVal.dict
           (consolidateFold [⟨"a", "yml", Except.ok (PyVal.int 1)⟩]).consolidated))) :=
  ⟨List.cons_ne_nil _ _,
    consolidate_gz_failure_amended [⟨"a", "yml", Except.ok (PyVal.int 1)⟩]
      ⟨Option.none, Option.none⟩ (List.cons_ne_nil _ _)⟩

/-- C6 counterexample: with files `a.yml` and `a.yaml` both valid, the key
`a` in the resulting entries equals the stem of two source files of that
run, not exactly one. -/
theorem consolidate_key_sources_counterexample :
    (consolidate_metadata true
        [⟨"a", "yml", Except.ok (PyVal.int 1)⟩,
         ⟨"a", "yaml", Except.ok (PyVal.int 2)⟩] true false
        ⟨Option.none, Option.none⟩).entries.map Prod.fst = ["a"] ∧
    (([⟨"a", "yml", Except.ok (PyVal.int 1)⟩,
       ⟨"a", "yaml", Except.ok (PyVal.int 2)⟩] : List SrcFile).filter
        (fun f => f.stem == "a")).length = 2 ∧
    ¬ (∀ p ∈ (consolidate_metadata true
          [⟨"a", "yml", Except.ok (PyVal.int 1)⟩,
           ⟨"a", "yaml", Except.ok (PyVal.int 2)⟩] true false
          ⟨Option.none, Option.none⟩).entries,
        (([⟨"a", "yml", Except.ok (PyVal.int 1)⟩,
           ⟨"a", "yaml", Except.ok (PyVal.int 2)⟩] : List SrcFile).filter
            (fun f => f.stem == p.1)).length = 1) := by
  refine ⟨by decide, by decide, by decide⟩

/-- C6 (amended): every key present in the entries equals the stem of at
least one source file present during the run, its value is the parse
result of such a file, and no entry holds Python None — a record counted
as failed contributes no entry. -/
theorem consolidate_entries_from_sources (files : List SrcFile) (c gzf : Bool)
    (prior : OutFs) :
    ∀ p ∈ (consolidate_metadata true files c gzf prior).entries,
      (∃ f ∈ files, f.stem = p.1 ∧ load_yaml_file f = p.2) ∧
        isNone p.2 = false := by
  intro p hp
  cases files with
  | nil => simp [consolidate_metadata] at hp
  | cons f0 fs0 =>
      rw [run_entries (f0 :: fs0) c gzf prior rfl] at hp
      have hp' : p ∈ ((f0 :: fs0).foldl consolidateStep
          ⟨[], 0⟩).consolidated := hp
      rcases foldl_entries_sound (f0 :: fs0) ⟨[], 0⟩ p hp' with h | ⟨g, hg, h1, h2, h3⟩
      · simp at h
      · exact ⟨⟨g, hg, h1, h2⟩, by rw [← h2]; exact h3⟩

/-- Witness for the amended C6 at a concrete input: the one entry produced
by consolidating a single valid record satisfies the invariant. -/
theorem consolidate_entries_from_sources_witness :
    (∃ f ∈ ([⟨"a", "yml", Except.ok (PyVal.int 1)⟩] : List SrcFile),
        f.stem = ("a", PyVal.int 1).1 ∧ load_yaml_file f = ("a", PyVal.int 1).2) ∧
      isNone ("a", PyVal.int 1).2 = false :=
  consolidate_entries_from_sources [⟨"a", "yml", Except.ok (PyVal.int 1)⟩]
    true false ⟨Option.none, Option.none⟩ ("a", PyVal.int 1)
    (show ("a", PyVal.int 1) ∈ (consolidate_metadata true
        [⟨"a", "yml", Except.ok (PyVal.int 1)⟩] true false
        ⟨Option.none, Option.none⟩).entries from List.mem_cons_self _ _)

/-- C7: the value stored at a stem is the payload of the last-enumerated
successfully parsed file with that stem — a later file with the same stem
silently overwrites an earlier one — while the failure count is untouched
by collisions (it counts exactly the unparsable files), the only warnings
are parse warnings, and the run completes with exit 0. -/
theorem consolidate_last_wins (files : List SrcFile) (prior : OutFs)
    (k : String) (h : files ≠ []) :
    lookupDict (consolidate_metadata true files true false prior).entries k
      = ((files.filter
            (fun f => f.stem == k && !(isNone (load_yaml_file f)))).getLast?).map
          load_yaml_file ∧
    (consolidate_metadata true files true false prior).failed_count
        = countFailed files ∧
    (consolidate_metadata true files true false prior).parse_warnings
        = (files.filter (fun f => isParseError f)).length ∧
    (consolidate_metadata true files true false prior).outcome.exitCode = 0 := by
  have hne := isEmpty_false_of_ne_nil h
  refine ⟨?_, ?_, run_warnings files true false prior hne, ?_⟩
  · rw [run_entries files true false prior hne]
    have h0 := foldl_lookup_last files k ⟨[], 0⟩
    cases hfl : (files.filter
        (fun f => f.stem == k && !(isNone (load_yaml_file f)))).getLast? with
    | none =>
        rw [hfl] at h0
        simpa [consolidateFold, lookupDict] using h0
    | some g =>
        rw [hfl] at h0
        simpa [consolidateFold] using h0
  · rw [run_failed files true false prior hne, consolidateFold_failed]
  · rw [run_outcome files true false prior hne]
    simp [RunOutcome.exitCode]

/-- Witness for C7: with `a.yml` valid and `a.yaml` valid enumerated later,
the key `a` holds the payload of `a.yaml`. -/
theorem consolidate_last_wins_witness :
    ([⟨"a", "yml", Except.ok (PyVal.int 1)⟩,
      ⟨"a", "yaml", Except.ok (PyVal.int 2)⟩] : List SrcFile) ≠ [] ∧
    lookupDict (consolidate_metadata true
        [⟨"a", "yml", Except.ok (PyVal.int 1)⟩,
         ⟨"a", "yaml", Except.ok (PyVal.int 2)⟩] true false
        ⟨Option.none, Option.none⟩).entries "a"
      = ((([⟨"a", "yml", Except.ok (PyVal.int 1)⟩,
            ⟨"a", "yaml", Except.ok (PyVal.int 2)⟩] : List SrcFile).filter
            (fun f => f.stem == "a" && !(isNone (load_yaml_file f)))).getLast?).map
          load_yaml_file :=
  ⟨List.cons_ne_nil _ _,
    (consolidate_last_wins
      [⟨"a", "yml", Except.ok (PyVal.int 1)⟩,
       ⟨"a", "yaml", Except.ok (PyVal.int 2)⟩]
      ⟨Option.none, Option.none⟩ "a" (List.cons_ne_nil _ _)).1⟩

/-- C8: two runs over the same enumerated source files write byte-identical
primary artifact content, regardless of the prior state of the output
artifacts or of the compression settings; the content is the compact JSON
encoding of the consolidated entries. -/
theorem consolidate_idempotent (files : List SrcFile) (c1 c2 g1 g2 : Bool)
    (p1 p2 : OutFs) (h : files ≠ []) :
    (consolidate_metadata true files c1 g1 p1).fs.primary
      = (consolidate_metadata true files c2 g2 p2).fs.primary ∧
    (consolidate_metadata true files c1 g1 p1).fs.primary
      = some (encodeJson (PyVal.dict (consolidateFold files).consolidated)) := by
  have hne := isEmpty_false_of_ne_nil h
  rw [run_primary files c1 g1 p1 hne, run_primary files c2 g2 p2 hne]
  exact ⟨rfl, rfl⟩

/-- Witness for C8 at a concrete input: a second run over the unchanged
directory, with the first run's output on disk, writes the same bytes. -/
theorem consolidate_idempotent_witness :
    ([⟨"a", "yml", Except.ok (PyVal.int 1)⟩] : List SrcFile) ≠ [] ∧
    ((consolidate_metadata true [⟨"a", "yml", Except.ok (PyVal.int 1)⟩] true false
        ⟨Option.none, Option.none⟩).fs.primary
      = (consolidate_metadata true [⟨"a", "yml", Except.ok (PyVal.int 1)⟩] true false
          ⟨some "old", some "old"⟩).fs.primary ∧
     (consolidate_metadata true [⟨"a", "yml", Except.ok (PyVal.int 1)⟩] true false
        ⟨Option.none, Option.none⟩).fs.primary
      = some (encodeJson (PyVal.dict
          (consolidateFold [⟨"a", "yml", Except.ok (PyVal.int 1)⟩]).consolidated))) :=
  ⟨List.cons_ne_nil _ _,
    consolidate_idempotent [⟨"a", "yml", Except.ok (PyVal.int 1)⟩]
      true true false false ⟨Option.none, Option.none⟩ ⟨some "old", some "old"⟩
      (List.cons_ne_nil _ _)⟩

/-- C9: a source file parsing to the YAML null document is treated exactly
as a file that failed to parse: the run's entries, failure count and
outcome are those of the run where it is replaced by an unparsable file;
it is counted in `failed_count`, and no entry ever carries Python None. -/
theorem consolidate_null_as_failure (pre post : List SrcFile) (s e msg : String)
    (c gzf : Bool) (prior : OutFs) :
    (consolidate_metadata true
        (pre ++ (⟨s, e, Except.ok PyVal.none⟩ : SrcFile) :: post) c gzf prior).entries
      = (consolidate_metadata true
          (pre ++ (⟨s, e, Except.error msg⟩ : SrcFile) :: post) c gzf prior).entries ∧
    (consolidate_metadata true
        (pre ++ (⟨s, e, Except.ok PyVal.none⟩ : SrcFile) :: post) c gzf prior).failed_count
      = (consolidate_metadata true
          (pre ++ (⟨s, e, Except.error msg⟩ : SrcFile) :: post) c gzf prior).failed_count ∧
    (consolidate_metadata true
        (pre ++ (⟨s, e, Except.ok PyVal.none⟩ : SrcFile) :: post) c gzf prior).outcome
      = (consolidate_metadata true
          (pre ++ (⟨s, e, Except.error msg⟩ : SrcFile) :: post) c gzf prior).outcome ∧
    (consolidate_metadata true
        (pre ++ (⟨s, e, Except.ok PyVal.none⟩ : SrcFile) :: post) c gzf prior).failed_count
      = countFailed pre + countFailed post + 1 ∧
    (∀ p ∈ (consolidate_metadata true
        (pre ++ (⟨s, e, Except.ok PyVal.none⟩ : SrcFile) :: post) c gzf prior).entries,
      isNone p.2 = false) := by
  have hne1 : (pre ++ (⟨s, e, Except.ok PyVal.none⟩ : SrcFile) :: post).isEmpty
      = false := by cases pre <;> rfl
  have hne2 : (pre ++ (⟨s, e, Except.error msg⟩ : SrcFile) :: post).isEmpty
      = false := by cases pre <;> rfl
  have hfold : consolidateFold (pre ++ (⟨s, e, Except.ok PyVal.none⟩ : SrcFile) :: post)
      = consolidateFold (pre ++ (⟨s, e, Except.error msg⟩ : SrcFile) :: post) :=
    foldl_congr_middle pre post ⟨s, e, Except.ok PyVal.none⟩
      ⟨s, e, Except.error msg⟩ rfl rfl ⟨[], 0⟩
  refine ⟨?_, ?_, ?_, ?_, ?_⟩
  · rw [run_entries _ c gzf prior hne1, run_entries _ c gzf prior hne2, hfold]
  · rw [run_failed _ c gzf prior hne1, run_failed _ c gzf prior hne2, hfold]
  · rw [run_outcome _ c gzf prior hne1, run_outcome _ c gzf prior hne2]
  · rw [run_failed _ c gzf prior hne1, consolidateFold_failed,
      countFailed_append]
    simp [countFailed, List.filter_cons, isNone, load_yaml_file]
    omega
  · intro p hp
    rw [run_entries _ c gzf prior hne1] at hp
    have hp' : p ∈ ((pre ++ (⟨s, e, Except.ok PyVal.none⟩ : SrcFile) :: post).foldl
        consolidateStep ⟨[], 0⟩).consolidated := hp
    rcases foldl_entries_sound _ ⟨[], 0⟩ p hp' with h | ⟨g, _, _, h2, h3⟩
    · simp at h
    · rw [← h2]
      exact h3

/-- Witness for C9 at a concrete input: a single empty (null-parsing) file
behaves exactly like a single unparsable file. -/
theorem consolidate_null_as_failure_witness :
    (consolidate_metadata true
        [(⟨"a", "yml", Except.ok PyVal.none⟩ : SrcFile)] true false
        ⟨Option.none, Option.none⟩).entries
      = (consolidate_metadata true
          [(⟨"a", "yml", Except.error "x"⟩ : SrcFile)] true false
          ⟨Option.none, Option.none⟩).entries ∧
    (consolidate_metadata true
        [(⟨"a", "yml", Except.ok PyVal.none⟩ : SrcFile)] true false
        ⟨Option.none, Option.none⟩).failed_count
      = countFailed ([] : List SrcFile) + countFailed ([] : List SrcFile) + 1 := by
  have h := consolidate_null_as_failure [] [] "a" "yml" "x" true false
    ⟨Option.none, Option.none⟩
  exact ⟨h.1, h.2.2.2.1⟩

end Robocoin
